import Mathlib

set_option maxHeartbeats 1000000

namespace PlaywrightProxy

/-! Shallow embedding of src/server.js, the single source file of the
playwright-proxy repository: an Express app exposing POST /fetch, which
drives a headless-browser session against a remote results site, plus a
CORS middleware and a GET / info route.

External effects (the shared browser handle, context/page creation,
navigation, in-page evaluation, the remote endpoint) are modelled by an
environment oracle `Env` that fixes, for one incoming request, whether each
awaited external step succeeds and what the external world returns. The
handler itself is then a pure function from the request body and the
environment to a `FetchOutcome`: the HTTP response together with a trace of
the side effects performed (context created, page created, navigation
attempted, form submitted and with which fields, what was closed at the
end). -/

/-- Truthiness of an optional JSON string field as JavaScript computes it
at server.js line 64: an absent field (undefined) and the empty string are
falsy; every other string is truthy. -/
def truthy : Option String → Bool
  | none => false
  | some s => !s.isEmpty

/-- The URL pair returned by getUrls (server.js lines 47-50). -/
structure UrlPair where
  form : String
  action : String
deriving DecidableEq, Repr

/-- The fixed remote host (server.js line 35). -/
def base : String := "http://results.nu.ac.bd"

/-- Result of the JavaScript bracket lookup `pages[year]` on the object
literal of server.js lines 38-44: an own property (one of the five listed
string values), a member inherited from Object.prototype (bracket lookup
traverses the prototype chain, so keys like toString or constructor hit
the inherited built-in, a truthy non-string value), or undefined. -/
inductive Lookup where
  | absent
  | own (page : String)
  | inherited (name : String)
deriving DecidableEq, Repr

/-- The property names every object literal inherits from
Object.prototype; looking any of them up on `pages` yields the inherited
built-in member, never undefined. -/
def objectProtoKeys : List String :=
  ["constructor", "hasOwnProperty", "isPrototypeOf", "propertyIsEnumerable",
   "toLocaleString", "toString", "valueOf", "__proto__",
   "__defineGetter__", "__defineSetter__", "__lookupGetter__", "__lookupSetter__"]

/-- The lookup `pages[year]` of server.js line 45: the five own keys first,
then the Object.prototype chain, then undefined. An absent year coerces to
the property key "undefined", which is neither own nor inherited. -/
def pagesLookup (year : Option String) : Lookup :=
  if year = some "1" then .own "first_year_result"
  else if year = some "2" then .own "second_year_result"
  else if year = some "3" then .own "third_year_result"
  else if year = some "4" then .own "fourth_year_result"
  else if year = some "consolidated" then .own "final_year_result"
  else match year with
    | some y => if y ∈ objectProtoKeys then .inherited y else .absent
    | none => .absent

/-- JavaScript truthiness of the lookup result, as the `!page` test at
server.js line 46 computes it: undefined is falsy, a string is falsy only
when empty, and every inherited Object.prototype member (a function, or
Object.prototype itself for the proto accessor) is truthy. -/
def lookupTruthy : Lookup → Bool
  | .absent => false
  | .own s => !s.isEmpty
  | .inherited _ => true

/-- Stringification of an inherited Object.prototype member when spliced
into the template literals of server.js lines 48-49. The constructor key
yields the Object constructor function and the proto accessor yields
Object.prototype itself; the exact text is engine-defined (shown here as
V8 prints it) and no theorem depends on it, only on the lookup being
truthy. -/
def protoMemberString (n : String) : String :=
  if n = "__proto__" then "[object Object]"
  else if n = "constructor" then "function Object() \x7b [native code] \x7d"
  else "function " ++ n ++ "() \x7b [native code] \x7d"

/-- Template-literal stringification of the lookup result (undefined would
print as the string undefined, but the guard at line 46 filters it before
interpolation). -/
def lookupToString : Lookup → String
  | .absent => "undefined"
  | .own s => s
  | .inherited n => protoMemberString n

/-- getUrls of server.js lines 34-54: for exam "honours" it looks year up
on the `pages` object and, whenever that lookup is truthy (an own table
entry or an inherited Object.prototype member), builds the form/action URL
pair by string interpolation; only a falsy lookup or a different exam
yields null (here: none). Arguments are Option String because the JS
caller may pass undefined. -/
def getUrls (exam year : Option String) : Option UrlPair :=
  if exam = some "honours" then
    let page := pagesLookup year
    if lookupTruthy page then
      some { form := base ++ "/honours/" ++ lookupToString page ++ ".php",
             action := base ++ "/honours/" ++ lookupToString page ++ "_show.php" }
    else none
  else none

/-- The JSON body of a POST /fetch request, destructured at server.js
line 61. Absent fields are none. -/
structure FetchBody where
  exam : Option String
  year : Option String
  roll : Option String
  reg : Option String
  examYear : Option String
deriving DecidableEq, Repr

/-- Environment oracle for one request: availability of the shared browser
handle and the outcome of each awaited external operation, in program
order. `csrf` and `letters` are the values of the two named input fields
on the loaded form page (none when the element is absent; the DOM query at
lines 93-98 then yields null). `remoteText` is the text of the remote
response to the in-page POST. `errMsg` is the message of whichever error
a failing external step throws. -/
structure Env where
  browser : Bool
  newContextOk : Bool
  newPageOk : Bool
  uaOk : Bool
  gotoOk : Bool
  evalOk : Bool
  csrf : Option String
  letters : Option String
  submitOk : Bool
  remoteText : String
  errMsg : String
deriving DecidableEq, Repr

/-- The form POSTed from inside the page at server.js lines 107-139: the
`inputs` object literal of lines 114-120 carries exactly these five named
fields, sent to `urls.action`. -/
structure SubmittedForm where
  actionUrl : String
  roll_number : Option String
  reg_no : Option String
  exam_year : Option String
  csrf_token : String
  letters_code : String
deriving DecidableEq, Repr

/-- An HTTP response: status, explicitly-set headers, body. -/
structure Response where
  status : Nat
  headers : List (String × String)
  body : String
deriving DecidableEq, Repr

/-- Outcome of handling one request: the response plus the trace of side
effects performed against the browser. -/
structure FetchOutcome where
  response : Response
  contextCreated : Bool
  pageCreated : Bool
  navigated : Bool
  submitted : Option SubmittedForm
  pageClosedAtEnd : Bool
  contextClosedAtEnd : Bool
deriving DecidableEq, Repr

/-- The three headers set on every response by the middleware of server.js
lines 10-18. -/
def corsHeaders : List (String × String) :=
  [("Access-Control-Allow-Origin", "*"),
   ("Access-Control-Allow-Methods", "POST, GET, OPTIONS"),
   ("Access-Control-Allow-Headers", "Content-Type")]

/-- The HTML error fragment built in the catch block, server.js line 147. -/
def proxyErrorBody (msg : String) : String :=
  "<h3>🚨 Proxy Error</h3><p>" ++ msg ++ "</p>"

/-- An outcome in which no browser resource was ever touched. -/
def noSessionOutcome (resp : Response) : FetchOutcome :=
  { response := resp, contextCreated := false, pageCreated := false,
    navigated := false, submitted := none, pageClosedAtEnd := false,
    contextClosedAtEnd := false }

/-- The POST /fetch handler, server.js lines 57-154, as a pure function of
the request body and the environment. The try/catch/finally control flow
is unfolded: each external await either succeeds (per Env) or throws into
the catch block, which sends the 500 Proxy Error fragment; the finally
block closes the page exactly when the `page` variable was assigned
(line 150), and never closes the context. The token-failure branch
(lines 101-104) also closes the page before returning. -/
def postFetch (b : FetchBody) (env : Env) : FetchOutcome :=
  if !truthy b.exam || !truthy b.year || !truthy b.reg || !truthy b.examYear then
    noSessionOutcome ⟨400, corsHeaders, "Missing required fields"⟩
  else
    match getUrls b.exam b.year with
    | none => noSessionOutcome ⟨400, corsHeaders, "Invalid exam or year"⟩
    | some urls =>
      if !env.browser then
        noSessionOutcome ⟨500, corsHeaders, "Browser not ready"⟩
      else if !env.newContextOk then
        noSessionOutcome ⟨500, corsHeaders, proxyErrorBody env.errMsg⟩
      else if !env.newPageOk then
        { response := ⟨500, corsHeaders, proxyErrorBody env.errMsg⟩,
          contextCreated := true, pageCreated := false, navigated := false,
          submitted := none, pageClosedAtEnd := false, contextClosedAtEnd := false }
      else if !env.uaOk then
        { response := ⟨500, corsHeaders, proxyErrorBody env.errMsg⟩,
          contextCreated := true, pageCreated := true, navigated := false,
          submitted := none, pageClosedAtEnd := true, contextClosedAtEnd := false }
      else if !env.gotoOk then
        { response := ⟨500, corsHeaders, proxyErrorBody env.errMsg⟩,
          contextCreated := true, pageCreated := true, navigated := true,
          submitted := none, pageClosedAtEnd := true, contextClosedAtEnd := false }
      else if !env.evalOk then
        { response := ⟨500, corsHeaders, proxyErrorBody env.errMsg⟩,
          contextCreated := true, pageCreated := true, navigated := true,
          submitted := none, pageClosedAtEnd := true, contextClosedAtEnd := false }
      else if !truthy env.csrf || !truthy env.letters then
        { response := ⟨500, corsHeaders, "❌ Failed to extract security tokens"⟩,
          contextCreated := true, pageCreated := true, navigated := true,
          submitted := none, pageClosedAtEnd := true, contextClosedAtEnd := false }
      else
        let f : SubmittedForm :=
          { actionUrl := urls.action, roll_number := b.roll, reg_no := b.reg,
            exam_year := b.examYear, csrf_token := env.csrf.getD "",
            letters_code := env.letters.getD "" }
        if !env.submitOk then
          { response := ⟨500, corsHeaders, proxyErrorBody env.errMsg⟩,
            contextCreated := true, pageCreated := true, navigated := true,
            submitted := some f, pageClosedAtEnd := true, contextClosedAtEnd := false }
        else
          { response := ⟨200, corsHeaders ++ [("Content-Type", "text/html")], env.remoteText⟩,
            contextCreated := true, pageCreated := true, navigated := true,
            submitted := some f, pageClosedAtEnd := true, contextClosedAtEnd := false }

/-- HTTP methods relevant to the routing of server.js; OTHER stands for
any verb with no matching route. -/
inductive Method where
  | GET | POST | OPTIONS | OTHER
deriving DecidableEq, Repr

/-- An incoming HTTP request. The body is only meaningful for POST /fetch;
bodyJsonMalformed records whether the raw body carried an application/json
content type but failed JSON parsing in the express.json middleware
registered at server.js line 7. -/
structure Request where
  method : Method
  path : String
  body : FetchBody
  bodyJsonMalformed : Bool
deriving DecidableEq, Repr

/-- The informational page served by GET / (server.js lines 157-163). -/
def homeHtml : String :=
  "\n    <h2>🎓 NU Result Playwright Proxy</h2>\n    <p>Running for educational purposes.</p>\n    <code>POST /fetch with exam, year, roll, reg, examYear</code>\n  "

/-- Routing past body parsing: the CORS middleware of lines 10-18 sets the
three headers on every response and short-circuits OPTIONS with 200 and an
empty body; then Express routes POST /fetch and GET /; anything else falls
through to the default 404. -/
def route (req : Request) (env : Env) : FetchOutcome :=
  if req.method = Method.OPTIONS then
    noSessionOutcome ⟨200, corsHeaders, ""⟩
  else if req.method = Method.POST ∧ req.path = "/fetch" then
    postFetch req.body env
  else if req.method = Method.GET ∧ req.path = "/" then
    noSessionOutcome ⟨200, corsHeaders, homeHtml⟩
  else
    noSessionOutcome ⟨404, corsHeaders, ""⟩

/-- Full request pipeline. The express.json body parser (server.js line 7)
is registered before the CORS middleware of lines 10-18, so a malformed
JSON body makes it raise a 400 parse error that the default Express error
handler answers directly, skipping the CORS middleware entirely: no CORS
headers and no OPTIONS short-circuit on that path (the error-page body the
default handler renders is environment-dependent and modelled as empty).
Requests whose body parses proceed to the CORS middleware and routing. -/
def handle (req : Request) (env : Env) : FetchOutcome :=
  if req.bodyJsonMalformed then
    noSessionOutcome ⟨400, [], ""⟩
  else route req env

/-- All guards of postFetch up to and including the token-extraction
evaluate succeed: the request passes validation and URL resolution, the
browser is up, and every external step through the extraction evaluate
succeeds. -/
def reachesExtraction (b : FetchBody) (env : Env) : Bool :=
  truthy b.exam && truthy b.year && truthy b.reg && truthy b.examYear &&
  (getUrls b.exam b.year).isSome &&
  env.browser && env.newContextOk && env.newPageOk && env.uaOk &&
  env.gotoOk && env.evalOk

/-- The whole flow succeeds: extraction is reached, both tokens are
truthy, and the in-page submission succeeds. -/
def successRun (b : FetchBody) (env : Env) : Bool :=
  reachesExtraction b env && truthy env.csrf && truthy env.letters &&
  env.submitOk

/-- A fully valid request body. -/
def validBody : FetchBody :=
  { exam := some "honours", year := some "1", roll := some "123456",
    reg := some "654321", examYear := some "2023" }

/-- An environment in which every external step succeeds. -/
def envAllOk : Env :=
  { browser := true, newContextOk := true, newPageOk := true, uaOk := true,
    gotoOk := true, evalOk := true, csrf := some "tok123",
    letters := some "ab12", submitOk := true,
    remoteText := "<html>result</html>", errMsg := "boom" }

/-! ## Helper lemmas (shared across claims) -/

/-- When the validation guard of line 64 fires, the handler returns the
400 Missing required fields response with no session activity. -/
theorem postFetch_missing_eq (b : FetchBody) (env : Env)
    (h : (!truthy b.exam || !truthy b.year || !truthy b.reg || !truthy b.examYear) = true) :
    postFetch b env = noSessionOutcome ⟨400, corsHeaders, "Missing required fields"⟩ := by
  simp only [postFetch, h, if_true]

/-! ## Claims -/

/-- C3 counterexample: the pair (honours, toString) is outside the
five-row table, yet getUrls does not return null: the bracket lookup
`pages[year]` at line 45 traverses Object.prototype, so the key toString
yields the inherited built-in function, which is truthy, and a non-null
URL pair built from its stringification is returned. -/
theorem getUrls_proto_key_not_none :
    ¬getUrls (some "honours") (some "toString") = none
  ∧ (getUrls (some "honours") (some "toString")).isSome = true := by decide

/-- C3 amended: for exam "honours" and year in 1,2,3,4,consolidated,
getUrls returns the table-given URL pair; for any exam other than honours
it returns none; for exam honours it returns none for every year that is
neither a table key nor a property name inherited from Object.prototype;
but for an inherited property name (toString, constructor, valueOf and the
like) the lookup is truthy and getUrls returns a non-null pair, never an
exception. -/
theorem getUrls_table (exam year : String) :
    getUrls (some "honours") (some "1") =
      some ⟨"http://results.nu.ac.bd/honours/first_year_result.php",
            "http://results.nu.ac.bd/honours/first_year_result_show.php"⟩
  ∧ getUrls (some "honours") (some "2") =
      some ⟨"http://results.nu.ac.bd/honours/second_year_result.php",
            "http://results.nu.ac.bd/honours/second_year_result_show.php"⟩
  ∧ getUrls (some "honours") (some "3") =
      some ⟨"http://results.nu.ac.bd/honours/third_year_result.php",
            "http://results.nu.ac.bd/honours/third_year_result_show.php"⟩
  ∧ getUrls (some "honours") (some "4") =
      some ⟨"http://results.nu.ac.bd/honours/fourth_year_result.php",
            "http://results.nu.ac.bd/honours/fourth_year_result_show.php"⟩
  ∧ getUrls (some "honours") (some "consolidated") =
      some ⟨"http://results.nu.ac.bd/honours/final_year_result.php",
            "http://results.nu.ac.bd/honours/final_year_result_show.php"⟩
  ∧ (exam ≠ "honours" → getUrls (some exam) (some year) = none)
  ∧ (year ∉ (["1", "2", "3", "4", "consolidated"] : List String) →
      year ∉ objectProtoKeys → getUrls (some exam) (some year) = none)
  ∧ (year ∈ objectProtoKeys →
      (getUrls (some "honours") (some year)).isSome = true) := by
  refine ⟨by decide, by decide, by decide, by decide, by decide, ?_, ?_, ?_⟩
  · intro he
    simp [getUrls, he]
  · intro hy hk
    by_cases he : exam = "honours"
    · simp only [List.mem_cons, List.mem_singleton, not_or] at hy
      obtain ⟨h1, h2, h3, h4, h5⟩ := hy
      simp [getUrls, pagesLookup, lookupTruthy, he, h1, h2, h3, h4, h5, hk]
    · simp [getUrls, he]
  · intro hk
    simp only [objectProtoKeys, List.mem_cons, List.not_mem_nil, or_false] at hk
    rcases hk with rfl | rfl | rfl | rfl | rfl | rfl | rfl | rfl | rfl | rfl | rfl | rfl <;>
      decide

/-- C3 witness: the amended theorem applied at the pair (honours, 9),
whose year is neither a table key nor an inherited property name,
discharging both hypotheses of the not-found conjunct. -/
theorem getUrls_table_witness :
    (("9" : String) ∉ (["1", "2", "3", "4", "consolidated"] : List String)
     ∧ ("9" : String) ∉ objectProtoKeys)
  ∧ getUrls (some "honours") (some "9") = none :=
  ⟨⟨by decide, by decide⟩,
   (getUrls_table "honours" "9").2.2.2.2.2.2.1 (by decide) (by decide)⟩

/-- A body identical to validBody except that roll is absent. -/
def bodyNoRoll : FetchBody :=
  { exam := some "honours", year := some "1", roll := none,
    reg := some "654321", examYear := some "2023" }

/-- C1 counterexample: a POST /fetch body missing only the roll field is
not rejected: with every external step succeeding, the request navigates,
creates a session and returns 200, because the validation at line 64
checks exam, year, reg and examYear but never roll. -/
theorem missing_roll_not_rejected :
    (postFetch bodyNoRoll envAllOk).response.status = 200
  ∧ (postFetch bodyNoRoll envAllOk).navigated = true
  ∧ (postFetch bodyNoRoll envAllOk).contextCreated = true
  ∧ ¬(postFetch bodyNoRoll envAllOk).response.status = 400 := by decide

/-- C1 amended: for every POST /fetch body missing (or falsy in) any one
of the four fields exam, year, reg, examYear, the handler returns 400 with
the plain-text body Missing required fields and performs no navigation and
no session creation; the roll field is not checked by the validation. -/
theorem fetch_missing_field_400 (b : FetchBody) (env : Env)
    (h : truthy b.exam = false ∨ truthy b.year = false ∨
         truthy b.reg = false ∨ truthy b.examYear = false) :
    (postFetch b env).response.status = 400
  ∧ (postFetch b env).response.body = "Missing required fields"
  ∧ (postFetch b env).navigated = false
  ∧ (postFetch b env).contextCreated = false := by
  have hg : (!truthy b.exam || !truthy b.year || !truthy b.reg || !truthy b.examYear) = true := by
    rcases h with h | h | h | h <;> simp [h]
  rw [postFetch_missing_eq b env hg]
  exact ⟨rfl, rfl, rfl, rfl⟩

/-- C1 amended witness: the amended theorem applied to a body whose exam
field is absent, in the all-success environment. -/
theorem fetch_missing_field_400_witness :
    (truthy (none : Option String) = false ∨
     truthy (some "1") = false ∨ truthy (some "654321") = false ∨
     truthy (some "2023") = false)
  ∧ ((postFetch ⟨none, some "1", some "123456", some "654321", some "2023"⟩ envAllOk).response.status = 400
     ∧ (postFetch ⟨none, some "1", some "123456", some "654321", some "2023"⟩ envAllOk).response.body = "Missing required fields"
     ∧ (postFetch ⟨none, some "1", some "123456", some "654321", some "2023"⟩ envAllOk).navigated = false
     ∧ (postFetch ⟨none, some "1", some "123456", some "654321", some "2023"⟩ envAllOk).contextCreated = false) :=
  ⟨Or.inl (by decide),
   fetch_missing_field_400 ⟨none, some "1", some "123456", some "654321", some "2023"⟩ envAllOk
     (Or.inl (by decide))⟩

/-- C10: a POST /fetch body in which exam, year, reg or examYear is
present but equal to the empty string is rejected with 400 exactly as if
the field were absent: the falsy check at line 64 does not distinguish an
empty value from a missing one, so such a request never reaches URL
resolution or navigation. -/
theorem fetch_empty_field_400 (b : FetchBody) (env : Env)
    (h : b.exam = some "" ∨ b.year = some "" ∨
         b.reg = some "" ∨ b.examYear = some "") :
    (postFetch b env).response.status = 400
  ∧ (postFetch b env).response.body = "Missing required fields"
  ∧ (postFetch b env).navigated = false
  ∧ (postFetch b env).contextCreated = false := by
  have he : truthy (some "") = false := by decide
  have hg : (!truthy b.exam || !truthy b.year || !truthy b.reg || !truthy b.examYear) = true := by
    rcases h with h | h | h | h <;> rw [h] <;> simp [he]
  rw [postFetch_missing_eq b env hg]
  exact ⟨rfl, rfl, rfl, rfl⟩

/-- C10 witness: the theorem applied to a body whose reg field is the
empty string, in the all-success environment. -/
theorem fetch_empty_field_400_witness :
    ((⟨some "honours", some "1", some "123456", some "", some "2023"⟩ : FetchBody).exam = some ""
     ∨ (⟨some "honours", some "1", some "123456", some "", some "2023"⟩ : FetchBody).year = some ""
     ∨ (⟨some "honours", some "1", some "123456", some "", some "2023"⟩ : FetchBody).reg = some ""
     ∨ (⟨some "honours", some "1", some "123456", some "", some "2023"⟩ : FetchBody).examYear = some "")
  ∧ ((postFetch ⟨some "honours", some "1", some "123456", some "", some "2023"⟩ envAllOk).response.status = 400
     ∧ (postFetch ⟨some "honours", some "1", some "123456", some "", some "2023"⟩ envAllOk).response.body = "Missing required fields"
     ∧ (postFetch ⟨some "honours", some "1", some "123456", some "", some "2023"⟩ envAllOk).navigated = false
     ∧ (postFetch ⟨some "honours", some "1", some "123456", some "", some "2023"⟩ envAllOk).contextCreated = false) :=
  ⟨Or.inr (Or.inr (Or.inl (by decide))),
   fetch_empty_field_400 ⟨some "honours", some "1", some "123456", some "", some "2023"⟩ envAllOk
     (Or.inr (Or.inr (Or.inl (by decide))))⟩

/-- C2: on no path does the handler ever close the browser context. The
finally block of lines 148-153 closes only the page, and the token-failure
branch at line 102 likewise closes only the page, so the context created
by browser.newContext() at line 78 remains open after every request that
created one — exhibited concretely on a fully successful request, which
responds 200 with its context still open. -/
theorem fetch_context_never_closed :
    (∀ (b : FetchBody) (env : Env), (postFetch b env).contextClosedAtEnd = false)
  ∧ (postFetch validBody envAllOk).response.status = 200
  ∧ (postFetch validBody envAllOk).contextCreated = true
  ∧ (postFetch validBody envAllOk).contextClosedAtEnd = false := by
  refine ⟨?_, by decide, by decide, by decide⟩
  intro b env
  unfold postFetch
  repeat' split
  all_goals rfl

/-- A body identical to validBody except that its year is the inherited
property name toString. -/
def bodyProtoYear : FetchBody :=
  { exam := some "honours", year := some "toString", roll := some "123456",
    reg := some "654321", examYear := some "2023" }

/-- C8 counterexample: the body with exam honours and year toString has an
exam/year combination outside the supported lookup table, yet it is not
answered 400 and a browser session is created: `pages[year]` at line 45
finds the inherited Object.prototype member, which is truthy, so getUrls
returns a non-null pair and the handler proceeds past the 400 branch of
line 70 into navigation. -/
theorem proto_year_not_rejected :
    ¬(postFetch bodyProtoYear envAllOk).response.status = 400
  ∧ (postFetch bodyProtoYear envAllOk).contextCreated = true
  ∧ (postFetch bodyProtoYear envAllOk).navigated = true := by decide

/-- C8 amended: a POST /fetch body that passes field validation and whose
exam/year pair does not resolve (getUrls returns null: exam is not
honours, or year is neither a table key nor an Object.prototype property
name) gets 400 with the plain-text body Invalid exam or year, and no
navigation or session creation happens; a year equal to an inherited
property name such as toString is not rejected and does reach
navigation. -/
theorem fetch_unrecognized_400 (b : FetchBody) (env : Env)
    (hv : (truthy b.exam && truthy b.year && truthy b.reg && truthy b.examYear) = true)
    (hu : getUrls b.exam b.year = none) :
    (postFetch b env).response.status = 400
  ∧ (postFetch b env).response.body = "Invalid exam or year"
  ∧ (postFetch b env).navigated = false
  ∧ (postFetch b env).contextCreated = false := by
  simp only [Bool.and_eq_true] at hv
  obtain ⟨⟨⟨h1, h2⟩, h3⟩, h4⟩ := hv
  simp [postFetch, h1, h2, h3, h4, hu, noSessionOutcome]

/-- C8 witness: the theorem applied to a body with the unsupported exam
masters, in the all-success environment. -/
theorem fetch_unrecognized_400_witness :
    ((truthy (some "masters") && truthy (some "1") && truthy (some "654321") && truthy (some "2023")) = true
     ∧ getUrls (some "masters") (some "1") = none)
  ∧ ((postFetch ⟨some "masters", some "1", some "123456", some "654321", some "2023"⟩ envAllOk).response.status = 400
     ∧ (postFetch ⟨some "masters", some "1", some "123456", some "654321", some "2023"⟩ envAllOk).response.body = "Invalid exam or year"
     ∧ (postFetch ⟨some "masters", some "1", some "123456", some "654321", some "2023"⟩ envAllOk).navigated = false
     ∧ (postFetch ⟨some "masters", some "1", some "123456", some "654321", some "2023"⟩ envAllOk).contextCreated = false) :=
  ⟨⟨by decide, by decide⟩,
   fetch_unrecognized_400 ⟨some "masters", some "1", some "123456", some "654321", some "2023"⟩
     envAllOk (by decide) (by decide)⟩

/-- An environment in which the shared browser handle failed to launch. -/
def envNoBrowser : Env := { envAllOk with browser := false }

/-- C7 counterexample: with the browser handle unavailable, a POST /fetch
body missing the exam field is answered 400 (field validation at line 64
runs before the browser check at line 73), so it is not the case that
every POST /fetch request returns 500 while the browser is down. -/
theorem browser_down_not_always_500 :
    envNoBrowser.browser = false
  ∧ (postFetch ⟨none, some "1", some "123456", some "654321", some "2023"⟩ envNoBrowser).response.status = 400
  ∧ ¬(postFetch ⟨none, some "1", some "123456", some "654321", some "2023"⟩ envNoBrowser).response.status = 500 := by
  decide

/-- C7 amended: with the browser handle unavailable, every POST /fetch
request that passes field validation and URL resolution returns 500 with
the plain-text body Browser not ready, without navigating or creating a
session (requests failing those earlier checks still get their 400), and
GET / still returns 200. -/
theorem fetch_browser_unavailable (b : FetchBody) (env : Env)
    (hb : env.browser = false)
    (hv : (truthy b.exam && truthy b.year && truthy b.reg && truthy b.examYear) = true)
    (hu : (getUrls b.exam b.year).isSome = true) :
    (postFetch b env).response.status = 500
  ∧ (postFetch b env).response.body = "Browser not ready"
  ∧ (postFetch b env).navigated = false
  ∧ (postFetch b env).contextCreated = false
  ∧ (handle ⟨Method.GET, "/", b, false⟩ env).response.status = 200 := by
  simp only [Bool.and_eq_true] at hv
  obtain ⟨⟨⟨h1, h2⟩, h3⟩, h4⟩ := hv
  obtain ⟨urls, hu2⟩ := Option.isSome_iff_exists.mp hu
  refine ⟨?_, ?_, ?_, ?_, rfl⟩ <;>
    simp [postFetch, h1, h2, h3, h4, hu2, hb, noSessionOutcome]

/-- C7 amended witness: the amended theorem applied to the valid body in
the browser-down environment. -/
theorem fetch_browser_unavailable_witness :
    (envNoBrowser.browser = false
     ∧ (truthy validBody.exam && truthy validBody.year && truthy validBody.reg && truthy validBody.examYear) = true
     ∧ (getUrls validBody.exam validBody.year).isSome = true)
  ∧ ((postFetch validBody envNoBrowser).response.status = 500
     ∧ (postFetch validBody envNoBrowser).response.body = "Browser not ready"
     ∧ (postFetch validBody envNoBrowser).navigated = false
     ∧ (postFetch validBody envNoBrowser).contextCreated = false
     ∧ (handle ⟨Method.GET, "/", validBody, false⟩ envNoBrowser).response.status = 200) :=
  ⟨⟨by decide, by decide, by decide⟩,
   fetch_browser_unavailable validBody envNoBrowser (by decide) (by decide) (by decide)⟩

/-- Unpacking of reachesExtraction into its component facts. -/
theorem reach_components (b : FetchBody) (env : Env)
    (hr : reachesExtraction b env = true) :
    truthy b.exam = true ∧ truthy b.year = true ∧ truthy b.reg = true
  ∧ truthy b.examYear = true ∧ (getUrls b.exam b.year).isSome = true
  ∧ env.browser = true ∧ env.newContextOk = true ∧ env.newPageOk = true
  ∧ env.uaOk = true ∧ env.gotoOk = true ∧ env.evalOk = true := by
  simp only [reachesExtraction, Bool.and_eq_true] at hr
  tauto

/-- C4: once the flow reaches token extraction, if either extracted token
is absent or empty the handler answers 500 with the token-failure message,
performs no form submission, and closes the page; and whenever a form is
submitted at all, both tokens of this very request were truthy and the
submitted token fields are exactly the values extracted in this request
(the handler is a pure function of this request and its environment, so no
state from an earlier request can be reused). -/
theorem fetch_token_guard (b : FetchBody) (env : Env) :
    (reachesExtraction b env = true →
      (truthy env.csrf = false ∨ truthy env.letters = false) →
        (postFetch b env).response.status = 500
      ∧ (postFetch b env).response.body = "❌ Failed to extract security tokens"
      ∧ (postFetch b env).submitted = none
      ∧ (postFetch b env).pageClosedAtEnd = true)
  ∧ (∀ f : SubmittedForm, (postFetch b env).submitted = some f →
      truthy env.csrf = true ∧ truthy env.letters = true
      ∧ f.csrf_token = env.csrf.getD "" ∧ f.letters_code = env.letters.getD "") := by
  constructor
  · intro hr ht
    obtain ⟨h1, h2, h3, h4, hu, hb, hc, hp, hua, hg, he⟩ := reach_components b env hr
    obtain ⟨urls, hu2⟩ := Option.isSome_iff_exists.mp hu
    have htg : (!truthy env.csrf || !truthy env.letters) = true := by
      rcases ht with ht | ht <;> simp [ht]
    simp [postFetch, h1, h2, h3, h4, hu2, hb, hc, hp, hua, hg, he, htg]
  · intro f hf
    unfold postFetch at hf
    repeat' split at hf
    all_goals first
      | exact Option.noConfusion hf
      | (have hfe := Option.some.inj hf; subst hfe; simp_all)

/-- An environment identical to envAllOk except that the form page has no
csrf_token input. -/
def envNoCsrf : Env := { envAllOk with csrf := none }

/-- C4 witness: the first part of the theorem applied to the valid body in
the environment whose form page lacks the csrf_token field. -/
theorem fetch_token_guard_witness :
    (reachesExtraction validBody envNoCsrf = true
     ∧ (truthy envNoCsrf.csrf = false ∨ truthy envNoCsrf.letters = false))
  ∧ ((postFetch validBody envNoCsrf).response.status = 500
     ∧ (postFetch validBody envNoCsrf).response.body = "❌ Failed to extract security tokens"
     ∧ (postFetch validBody envNoCsrf).submitted = none
     ∧ (postFetch validBody envNoCsrf).pageClosedAtEnd = true) :=
  ⟨⟨by decide, Or.inl (by decide)⟩,
   (fetch_token_guard validBody envNoCsrf).1 (by decide) (Or.inl (by decide))⟩

/-- C5: when token extraction and the in-page submission both succeed, the
response has status 200, carries the Content-Type text/html header set at
line 142, and its body is exactly the raw text of the remote response,
unparsed and unmodified. -/
theorem fetch_success_response (b : FetchBody) (env : Env)
    (h : successRun b env = true) :
    (postFetch b env).response.status = 200
  ∧ ("Content-Type", "text/html") ∈ (postFetch b env).response.headers
  ∧ (postFetch b env).response.body = env.remoteText := by
  simp only [successRun, Bool.and_eq_true] at h
  obtain ⟨⟨⟨hr, hcs⟩, hle⟩, hsub⟩ := h
  obtain ⟨h1, h2, h3, h4, hu, hb, hc, hp, hua, hg, he⟩ := reach_components b env hr
  obtain ⟨urls, hu2⟩ := Option.isSome_iff_exists.mp hu
  simp [postFetch, h1, h2, h3, h4, hu2, hb, hc, hp, hua, hg, he, hcs, hle, hsub]

/-- C5 witness: the theorem applied to the valid body in the all-success
environment. -/
theorem fetch_success_response_witness :
    successRun validBody envAllOk = true
  ∧ ((postFetch validBody envAllOk).response.status = 200
     ∧ ("Content-Type", "text/html") ∈ (postFetch validBody envAllOk).response.headers
     ∧ (postFetch validBody envAllOk).response.body = envAllOk.remoteText) :=
  ⟨by decide, fetch_success_response validBody envAllOk (by decide)⟩

/-- C6: whenever the submission step runs, the form it POSTs goes to the
action URL resolved for this request and carries exactly the five fields
of SubmittedForm, whose values are the request body roll, reg and examYear
and the two tokens extracted from the form page in this same request. -/
theorem fetch_submission_fields (b : FetchBody) (env : Env) (f : SubmittedForm)
    (hf : (postFetch b env).submitted = some f) :
    (∃ urls, getUrls b.exam b.year = some urls ∧ f.actionUrl = urls.action)
  ∧ f.roll_number = b.roll ∧ f.reg_no = b.reg ∧ f.exam_year = b.examYear
  ∧ f.csrf_token = env.csrf.getD "" ∧ f.letters_code = env.letters.getD "" := by
  unfold postFetch at hf
  repeat' split at hf
  all_goals first
    | exact Option.noConfusion hf
    | (have hfe := Option.some.inj hf; subst hfe; simp_all)

/-- C6 witness: the theorem applied to the concrete submitted form of a
fully successful run on the valid body. -/
theorem fetch_submission_fields_witness :
    (postFetch validBody envAllOk).submitted =
      some ⟨"http://results.nu.ac.bd/honours/first_year_result_show.php",
            some "123456", some "654321", some "2023", "tok123", "ab12"⟩
  ∧ ((∃ urls, getUrls validBody.exam validBody.year = some urls ∧
        ("http://results.nu.ac.bd/honours/first_year_result_show.php" : String) = urls.action)
     ∧ (some "123456" : Option String) = validBody.roll
     ∧ (some "654321" : Option String) = validBody.reg
     ∧ (some "2023" : Option String) = validBody.examYear
     ∧ ("tok123" : String) = envAllOk.csrf.getD ""
     ∧ ("ab12" : String) = envAllOk.letters.getD "") :=
  ⟨by decide,
   fetch_submission_fields validBody envAllOk
     ⟨"http://results.nu.ac.bd/honours/first_year_result_show.php",
      some "123456", some "654321", some "2023", "tok123", "ab12"⟩ (by decide)⟩

/-- Every response produced by the /fetch handler carries all three CORS
headers. -/
theorem postFetch_cors (b : FetchBody) (env : Env) :
    ∀ hdr ∈ corsHeaders, hdr ∈ (postFetch b env).response.headers := by
  intro hdr hmem
  unfold postFetch
  repeat' split
  all_goals first
    | exact hmem
    | exact List.mem_append_left _ hmem

/-- A body with no fields, standing for a request whose raw body never
produced a parsed object. -/
def emptyBody : FetchBody := ⟨none, none, none, none, none⟩

/-- C9 counterexample: a request whose JSON body is malformed is answered
400 by the express.json parse-error path, which runs before the CORS
middleware of lines 10-18: its response carries none of the CORS headers,
and even an OPTIONS request on this path is not short-circuited with 200,
so not every response carries the headers and not every OPTIONS request
gets 200 with an empty body. -/
theorem malformed_json_no_cors :
    (⟨Method.OPTIONS, "/fetch", emptyBody, true⟩ : Request).method = Method.OPTIONS
  ∧ (handle ⟨Method.OPTIONS, "/fetch", emptyBody, true⟩ envAllOk).response.headers = []
  ∧ ("Access-Control-Allow-Origin", "*") ∉
      (handle ⟨Method.OPTIONS, "/fetch", emptyBody, true⟩ envAllOk).response.headers
  ∧ ¬(handle ⟨Method.OPTIONS, "/fetch", emptyBody, true⟩ envAllOk).response.status = 200 := by
  decide

/-- C9 amended: every response to a request whose body passes JSON parsing
carries the three CORS headers set by the middleware, on every route, and
every such OPTIONS request, regardless of path, short-circuits with status
200 and an empty body; a request whose JSON body is malformed is instead
answered 400 by the body parser registered before the CORS middleware,
without those headers. -/
theorem cors_and_options (req : Request) (env : Env)
    (hp : req.bodyJsonMalformed = false) :
    (∀ hdr ∈ corsHeaders, hdr ∈ (handle req env).response.headers)
  ∧ (req.method = Method.OPTIONS →
      (handle req env).response.status = 200
      ∧ (handle req env).response.body = "") := by
  have hr : handle req env = route req env := by simp [handle, hp]
  rw [hr]
  constructor
  · intro hdr hmem
    unfold route
    repeat' split
    all_goals first
      | exact hmem
      | exact postFetch_cors req.body env hdr hmem
  · intro hm
    simp [route, hm, noSessionOutcome]

/-- C9 witness: the amended theorem applied to an OPTIONS request with a
well-formed body on an arbitrary path. -/
theorem cors_and_options_witness :
    ((⟨Method.OPTIONS, "/anything", validBody, false⟩ : Request).bodyJsonMalformed = false
     ∧ ("Access-Control-Allow-Origin", "*") ∈ corsHeaders
     ∧ (⟨Method.OPTIONS, "/anything", validBody, false⟩ : Request).method = Method.OPTIONS)
  ∧ (("Access-Control-Allow-Origin", "*") ∈ (handle ⟨Method.OPTIONS, "/anything", validBody, false⟩ envAllOk).response.headers
     ∧ (handle ⟨Method.OPTIONS, "/anything", validBody, false⟩ envAllOk).response.status = 200
     ∧ (handle ⟨Method.OPTIONS, "/anything", validBody, false⟩ envAllOk).response.body = "") :=
  ⟨⟨rfl, by decide, rfl⟩,
   ⟨(cors_and_options ⟨Method.OPTIONS, "/anything", validBody, false⟩ envAllOk rfl).1 _ (by decide),
    (cors_and_options ⟨Method.OPTIONS, "/anything", validBody, false⟩ envAllOk rfl).2 rfl⟩⟩

end PlaywrightProxy
